import Mathlib

/-!
Verification of the wagtail-review token-based capability and permission
model.  The repository ships its API test suite (`tests/test_api.py`) and
`wagtail_review/forms.py`; the token codec, permission resolver, comment
store and review-task responder live outside the shipped sources, so those
components are modelled here from the specification (each such definition
carries a doc comment starting "Modelled from the spec:").
`get_review_form_class` is embedded directly from `wagtail_review/forms.py`.
-/

namespace WagtailReview

/-- Modelled from the spec: a page revision is an immutable snapshot of a
page; it is identified by an id and belongs to a page. -/
structure PageRevision where
  id : Nat
  page : Nat
deriving DecidableEq, Repr

/-- Modelled from the spec: a Share grants an external reviewer comment
rights on a specific page; it has a boolean `can_comment`. -/
structure Share where
  page : Nat
  reviewer : Nat
  can_comment : Bool
deriving DecidableEq, Repr

/-- Modelled from the spec: a ReviewTask (workflow task variant) has a set
of assigned reviewers. -/
structure ReviewTask where
  id : Nat
  reviewers : List Nat
deriving DecidableEq, Repr

/-- Modelled from the spec: lifecycle of a ReviewTaskState is
pending → finished with a status in \x7bapproved, rejected\x7d. -/
inductive TaskStatus where
  | pending
  | approved
  | rejected
deriving DecidableEq, Repr

/-- Modelled from the spec: one ReviewTaskState per (workflow run, task,
page revision); records status, a free-text comment, a `finished_at`
timestamp and the reviewer who finished it. -/
structure ReviewTaskState where
  id : Nat
  workflow_state : Nat
  task : Nat
  page_revision : Nat
  status : TaskStatus
  comment : String
  finished_at : Option Nat
  reviewer : Option Nat
deriving DecidableEq, Repr

/-- Modelled from the spec: status of a workflow run; only an in-progress
run exposes a current task-state. -/
inductive WorkflowStatus where
  | in_progress
  | approved
  | rejected
deriving DecidableEq, Repr

/-- Modelled from the spec: a workflow run on a page; it has at most one
current task-state at a time. -/
structure WorkflowState where
  id : Nat
  page : Nat
  status : WorkflowStatus
  current_task_state : Option Nat
deriving DecidableEq, Repr

/-- Modelled from the spec: a Comment is anchored to a page revision via a
content path plus start/end XPath+offset range, owned by the reviewer who
created it, with a nullable `resolved_at`. -/
structure Comment where
  id : Nat
  page_revision : Nat
  reviewer : Nat
  quote : String
  text : String
  content_path : String
  start_xpath : String
  start_offset : Nat
  end_xpath : String
  end_offset : Nat
  created_at : Nat
  updated_at : Nat
  resolved_at : Option Nat
deriving DecidableEq, Repr

/-- Modelled from the spec: a CommentReply is owned by a reviewer and is a
child of exactly one Comment. -/
structure CommentReply where
  id : Nat
  comment : Nat
  reviewer : Nat
  text : String
  created_at : Nat
  updated_at : Nat
deriving DecidableEq, Repr

/-- Modelled from the spec: the database state the request handlers read
and write (reviewers, revisions, Share grants, tasks, workflow runs, task
states, comments, replies). -/
structure DB where
  reviewers : List Nat
  revisions : List PageRevision
  shares : List Share
  tasks : List ReviewTask
  workflow_states : List WorkflowState
  task_states : List ReviewTaskState
  comments : List Comment
  replies : List CommentReply
deriving DecidableEq, Repr

def DB.findRevision (db : DB) (i : Nat) : Option PageRevision :=
  db.revisions.find? (fun rv => rv.id == i)

def DB.findTaskState (db : DB) (i : Nat) : Option ReviewTaskState :=
  db.task_states.find? (fun ts => ts.id == i)

def DB.findTask (db : DB) (i : Nat) : Option ReviewTask :=
  db.tasks.find? (fun t => t.id == i)

/-- Modelled from the spec: the payload of a capability token binds
\x7breviewer identity, page revision, optional task state\x7d. -/
structure TokenData where
  reviewer : Nat
  page_revision : Nat
  task_state : Option Nat
deriving DecidableEq, Repr

/-- Modelled from the spec: symmetric signature over the payload using a
server-held secret (the concrete mixing function stands in for the framework
signer; decode only ever compares it against a recomputation). -/
def signPayload (secret : Nat) (t : TokenData) : Nat :=
  secret + 3 * t.reviewer + 5 * t.page_revision +
    7 * (match t.task_state with | none => 0 | some n => n + 1)

/-- Modelled from the spec: the encoded token is self-contained — payload
plus signature, no server-side session. -/
structure SignedToken where
  payload : TokenData
  signature : Nat
deriving DecidableEq, Repr

/-- Modelled from the spec: decode fails with InvalidToken on bad
signature, malformed payload, or reference to a deleted
reviewer/revision/task-state. -/
inductive DecodeError where
  | invalidToken
deriving DecidableEq, Repr

/-- Modelled from the spec: `encode(reviewer, page_revision, task_state)`
signs the payload with the server secret. -/
def Token.encode (secret : Nat) (t : TokenData) : SignedToken :=
  { payload := t, signature := signPayload secret t }

/-- Modelled from the spec: `decode` verifies the signature then checks
that the referenced reviewer, revision and (when present) task-state still
exist, failing with InvalidToken otherwise. -/
def Token.decode (secret : Nat) (db : DB) (s : SignedToken) :
    Except DecodeError TokenData :=
  if s.signature != signPayload secret s.payload then
    .error .invalidToken
  else if !(db.reviewers.contains s.payload.reviewer) then
    .error .invalidToken
  else if (db.findRevision s.payload.page_revision).isNone then
    .error .invalidToken
  else
    match s.payload.task_state with
    | none => .ok s.payload
    | some tsId =>
        if (db.findTaskState tsId).isSome then .ok s.payload
        else .error .invalidToken

/-- Modelled from the spec: the current task-state of a page is the
current task-state of the page's in-progress workflow run (a finished run
no longer exposes one; the respond test pins that a task-state which is
merely current for an already-approved run does not count). -/
def pageCurrentTaskState (db : DB) (page : Nat) : Option Nat :=
  match db.workflow_states.find?
      (fun ws => ws.page == page && ws.status == WorkflowStatus.in_progress) with
  | none => none
  | some ws => ws.current_task_state

/-- Modelled from the spec: whether a reviewer is assigned to the task
of the given task-state. -/
def assignedToTaskState (db : DB) (r tsId : Nat) : Bool :=
  match db.findTaskState tsId with
  | none => false
  | some ts =>
      match db.findTask ts.task with
      | none => false
      | some task => task.reviewers.contains r

/-- Modelled from the spec: whether a reviewer is assigned to a task whose
state is the page's current task-state. -/
def reviewerAssignedToCurrentTask (db : DB) (r page : Nat) : Bool :=
  match pageCurrentTaskState db page with
  | none => false
  | some tsId => assignedToTaskState db r tsId

/-- Modelled from the spec: `can_comment` is true iff an active Share
grants the bound reviewer comment rights on the page of the bound
revision, OR the reviewer is assigned to a task whose state is the page's
current task-state. -/
def canComment (db : DB) (tok : TokenData) : Bool :=
  match db.findRevision tok.page_revision with
  | none => false
  | some rev =>
      db.shares.any (fun s =>
        s.page == rev.page && s.reviewer == tok.reviewer && s.can_comment)
      || reviewerAssignedToCurrentTask db tok.reviewer rev.page

/-- Modelled from the spec: `can_review` is true iff the token carries a
task-state AND that task-state is still the current task-state AND the
bound reviewer is assigned to that task. -/
def canReview (db : DB) (tok : TokenData) : Bool :=
  match tok.task_state, db.findRevision tok.page_revision with
  | some tsId, some rev =>
      (pageCurrentTaskState db rev.page == some tsId)
        && assignedToTaskState db tok.reviewer tsId
  | _, _ => false

/-- Modelled from the spec: the base endpoint always returns 200 with a
rights summary for the bound reviewer and revision. -/
structure RightsSummary where
  status : Nat
  can_comment : Bool
  can_review : Bool
deriving DecidableEq, Repr

/-- Modelled from the spec: GET base — rights summary
`\x7byou, can_comment, can_review\x7d`, always 200. -/
def baseView (db : DB) (tok : TokenData) : RightsSummary :=
  { status := 200, can_comment := canComment db tok, can_review := canReview db tok }

/-- Modelled from the spec: HTTP outcome of an API call — success with a
status code, 404 with the generic "Not found." body, or 403 with a detail
message. -/
inductive Response where
  | ok (code : Nat)
  | notFound
  | forbidden (detail : String)
deriving DecidableEq, Repr

/-- Modelled from the spec: detail body of a generic permission failure
(the DRF default seen in the tests). -/
def genericForbidden : String := "You do not have permission to perform this action."

/-- Modelled from the spec: detail body when the token's task-state is not
the current task. -/
def wrongTaskForbidden : String := "The provided token isn\x27t for the current task."

/-- Modelled from the spec: the comment detail queryset is scoped to the
bound revision, so a comment on another revision is simply not found —
never a 403 — to avoid leaking cross-revision existence. -/
def commentGetObject (db : DB) (tok : TokenData) (cid : Nat) : Option Comment :=
  db.comments.find? (fun c => c.id == cid && c.page_revision == tok.page_revision)

/-- Modelled from the spec: fields of a well-formed comment create/update
payload. -/
structure CommentPayload where
  quote : String
  text : String
  content_path : String
  start_xpath : String
  start_offset : Nat
  end_xpath : String
  end_offset : Nat
deriving DecidableEq, Repr

/-- Modelled from the spec: GET comment detail — 404 when out of scope,
200 otherwise. -/
def commentRetrieve (db : DB) (tok : TokenData) (cid : Nat) : Response :=
  match commentGetObject db tok cid with
  | none => .notFound
  | some _ => .ok 200

/-- Modelled from the spec: PUT comment detail — scoped lookup (404),
comment-rights check (403), author check (403); on success replaces the
payload fields and touches `updated_at`. -/
def commentUpdate (db : DB) (tok : TokenData) (cid : Nat) (p : CommentPayload)
    (now : Nat) : Response × DB :=
  match commentGetObject db tok cid with
  | none => (.notFound, db)
  | some c =>
      if !(canComment db tok) then (.forbidden genericForbidden, db)
      else if !(c.reviewer == tok.reviewer) then (.forbidden genericForbidden, db)
      else
        (.ok 200,
          { db with comments := db.comments.map (fun c2 =>
              if c2.id == cid then
                { c2 with quote := p.quote, text := p.text,
                          content_path := p.content_path,
                          start_xpath := p.start_xpath, start_offset := p.start_offset,
                          end_xpath := p.end_xpath, end_offset := p.end_offset,
                          updated_at := now }
              else c2) })

/-- Modelled from the spec: DELETE comment detail — scoped lookup (404),
comment-rights check (403), author check (403); on success removes the
comment and returns 204. -/
def commentDelete (db : DB) (tok : TokenData) (cid : Nat) : Response × DB :=
  match commentGetObject db tok cid with
  | none => (.notFound, db)
  | some c =>
      if !(canComment db tok) then (.forbidden genericForbidden, db)
      else if !(c.reviewer == tok.reviewer) then (.forbidden genericForbidden, db)
      else (.ok 204, { db with comments := db.comments.filter (fun c2 => !(c2.id == cid)) })

/-- Modelled from the spec: write a comment's `resolved_at`. -/
def setResolved (db : DB) (cid : Nat) (v : Option Nat) : DB :=
  { db with comments := db.comments.map (fun c =>
      if c.id == cid then { c with resolved_at := v } else c) }

/-- Modelled from the spec: PUT comment resolved — permitted for any
reviewer with comment rights on the revision (not just the author); sets
`resolved_at`. -/
def resolveComment (db : DB) (tok : TokenData) (cid : Nat) (now : Nat) :
    Response × DB :=
  match commentGetObject db tok cid with
  | none => (.notFound, db)
  | some _ =>
      if !(canComment db tok) then (.forbidden genericForbidden, db)
      else (.ok 200, setResolved db cid (some now))

/-- Modelled from the spec: DELETE comment resolved — permitted for any
reviewer with comment rights on the revision; clears `resolved_at`. -/
def unresolveComment (db : DB) (tok : TokenData) (cid : Nat) : Response × DB :=
  match commentGetObject db tok cid with
  | none => (.notFound, db)
  | some _ =>
      if !(canComment db tok) then (.forbidden genericForbidden, db)
      else (.ok 200, setResolved db cid none)

/-- Modelled from the spec: POST comment list — requires comment rights;
creates the comment with author := bound reviewer, revision := bound
revision, `resolved_at` null, returning 201. -/
def commentCreate (db : DB) (tok : TokenData) (p : CommentPayload)
    (newId now : Nat) : Response × DB :=
  if !(canComment db tok) then (.forbidden genericForbidden, db)
  else
    (.ok 201,
      { db with comments := db.comments ++
          [{ id := newId, page_revision := tok.page_revision,
             reviewer := tok.reviewer, quote := p.quote, text := p.text,
             content_path := p.content_path,
             start_xpath := p.start_xpath, start_offset := p.start_offset,
             end_xpath := p.end_xpath, end_offset := p.end_offset,
             created_at := now, updated_at := now, resolved_at := none }] })

/-- Modelled from the spec: a reply is addressed through its parent
comment, which must itself be in scope (right id and bound revision). -/
def replyGetObject (db : DB) (tok : TokenData) (cid rid : Nat) :
    Option CommentReply :=
  match commentGetObject db tok cid with
  | none => none
  | some _ => db.replies.find? (fun rp => rp.id == rid && rp.comment == cid)

/-- Modelled from the spec: PUT reply detail — scoped lookup (404),
comment-rights check (403), author check (403); on success replaces the
text and touches `updated_at`. -/
def replyUpdate (db : DB) (tok : TokenData) (cid rid : Nat) (text : String)
    (now : Nat) : Response × DB :=
  match replyGetObject db tok cid rid with
  | none => (.notFound, db)
  | some rp =>
      if !(canComment db tok) then (.forbidden genericForbidden, db)
      else if !(rp.reviewer == tok.reviewer) then (.forbidden genericForbidden, db)
      else
        (.ok 200,
          { db with replies := db.replies.map (fun r2 =>
              if r2.id == rid then { r2 with text := text, updated_at := now }
              else r2) })

/-- Modelled from the spec: DELETE reply detail — scoped lookup (404),
comment-rights check (403), author check (403); on success removes the
reply and returns 204. -/
def replyDelete (db : DB) (tok : TokenData) (cid rid : Nat) : Response × DB :=
  match replyGetObject db tok cid rid with
  | none => (.notFound, db)
  | some rp =>
      if !(canComment db tok) then (.forbidden genericForbidden, db)
      else if !(rp.reviewer == tok.reviewer) then (.forbidden genericForbidden, db)
      else (.ok 204, { db with replies := db.replies.filter (fun r2 => !(r2.id == rid)) })

/-- Modelled from the spec: finish a task-state —
`pending --[approve|reject]--> finished\x7bstatus, comment, finished_at,
reviewer\x7d`. -/
def finishTaskState (db : DB) (tsId : Nat) (st : TaskStatus) (comment : String)
    (now r : Nat) : DB :=
  { db with task_states := db.task_states.map (fun ts =>
      if ts.id == tsId then
        { ts with status := st, comment := comment,
                  finished_at := some now, reviewer := some r }
      else ts) }

/-- Modelled from the spec: POST respond — the token must carry a
task-state whose task the reviewer is assigned to (else a generic
permission failure); the task-state must equal the page's current
task-state (else the distinct "token not for current task" failure); an
unrecognized action fails with the generic permission error; approve or
reject finishes the task-state. -/
def respondView (db : DB) (tok : TokenData) (action comment : String)
    (now : Nat) : Response × DB :=
  match tok.task_state with
  | none => (.forbidden genericForbidden, db)
  | some tsId =>
      if !(assignedToTaskState db tok.reviewer tsId) then
        (.forbidden genericForbidden, db)
      else
        match db.findRevision tok.page_revision with
        | none => (.forbidden genericForbidden, db)
        | some rev =>
            if !(pageCurrentTaskState db rev.page == some tsId) then
              (.forbidden wrongTaskForbidden, db)
            else if action == "approve" then
              (.ok 200, finishTaskState db tsId .approved comment now tok.reviewer)
            else if action == "reject" then
              (.ok 200, finishTaskState db tsId .rejected comment now tok.reviewer)
            else (.forbidden genericForbidden, db)

end WagtailReview

namespace WagtailReview

/-- C1: for every reviewer, page revision and optional task-state that
still exist in the database, decoding the token produced by
`encode(r, rev, ts)` succeeds and yields back exactly the triple
`(r, rev, ts)`. -/
theorem token_encode_decode_roundtrip (secret : Nat) (db : DB)
    (r rev : Nat) (ts : Option Nat)
    (hr : db.reviewers.contains r = true)
    (hv : (db.findRevision rev).isSome = true)
    (hts : ∀ t, ts = some t → (db.findTaskState t).isSome = true) :
    Token.decode secret db (Token.encode secret ⟨r, rev, ts⟩) =
      .ok ⟨r, rev, ts⟩ := by
  have hv' : ¬ db.findRevision rev = none := by
    intro h
    rw [h] at hv
    simp at hv
  unfold Token.decode Token.encode
  simp only [bne_self_eq_false, Bool.false_eq_true, if_false, hr,
    Bool.not_true, hv, Option.isNone_iff_eq_none]
  cases ts with
  | none => simp [hv']
  | some t => simp [hv', hts t rfl]

/-- Sample database mirroring the fixture of `tests/test_api.py`: reviewer 1
holds an enabling Share on page 10, reviewer 2 a disabled one; task 20 is
assigned to reviewer 1; the in-progress workflow run 40 has current
task-state 30 (task-state 31 belongs to an earlier pass); revision 100 is
the bound revision and 101 another revision of the same page. -/
def demoDB : DB :=
  { reviewers := [1, 2]
  , revisions := [⟨100, 10⟩, ⟨101, 10⟩]
  , shares := [⟨10, 1, true⟩, ⟨10, 2, false⟩]
  , tasks := [⟨20, [1]⟩]
  , workflow_states := [⟨40, 10, .in_progress, some 30⟩]
  , task_states :=
      [ ⟨30, 40, 20, 100, .pending, "", none, none⟩
      , ⟨31, 40, 20, 100, .approved, "", none, none⟩ ]
  , comments :=
      [ ⟨1, 100, 1, "q1", "t1", "title", "/foo", 1, "/foo", 10, 0, 0, none⟩
      , ⟨2, 100, 2, "q2", "t2", "title", "/a", 0, "/a", 1, 0, 0, none⟩
      , ⟨3, 101, 1, "q3", "t3", "title", "/b", 0, "/b", 1, 0, 0, none⟩ ]
  , replies := [⟨5, 1, 1, "r5", 0, 0⟩, ⟨6, 1, 2, "r6", 0, 0⟩] }

/-- Token of reviewer 1 bound to revision 100, no task-state. -/
def demoTok : TokenData := ⟨1, 100, none⟩

/-- A well-formed comment payload. -/
def demoPayload : CommentPayload := ⟨"q", "t", "title", "/x", 0, "/x", 1⟩

/-- C1 witness: on the sample database, reviewer 1, revision 100 and
task-state 30 all exist and the token round-trips. -/
theorem token_encode_decode_roundtrip_witness :
    Token.decode 42 demoDB (Token.encode 42 ⟨1, 100, some 30⟩) =
      .ok ⟨1, 100, some 30⟩ :=
  token_encode_decode_roundtrip 42 demoDB 1 100 (some 30) (by decide)
    (by decide) (by intro t h; cases h; decide)

/-- Mapping an idempotent function twice over a list is the same as mapping
it once. -/
theorem map_idem_of_comp {α : Type} (f : α → α) (hf : ∀ x, f (f x) = f x)
    (l : List α) : (l.map f).map f = l.map f := by
  rw [List.map_map]
  exact List.map_congr_left (fun a _ => hf a)

/-- Searching a mapped list with a predicate the mapping preserves finds
the image of what the original search finds. -/
theorem find_map_of_pres {α : Type} (f : α → α) (p : α → Bool)
    (hp : ∀ x, p (f x) = p x) (l : List α) :
    (l.map f).find? p = (l.find? p).map f := by
  rw [List.find?_map]
  have : (p ∘ f) = p := funext hp
  rw [this]

/-- A comment every copy of whose id lies on another revision is outside
the scoped queryset. -/
theorem commentGetObject_eq_none (db : DB) (tok : TokenData) (cid : Nat)
    (h : ∀ c ∈ db.comments, c.id = cid → c.page_revision ≠ tok.page_revision) :
    commentGetObject db tok cid = none := by
  unfold commentGetObject
  rw [List.find?_eq_none]
  intro c hc
  simp only [Bool.and_eq_true, beq_iff_eq, not_and]
  exact h c hc

/-- C2: a GET, PUT or DELETE of the detail endpoint of a comment whose
page revision differs from the revision bound in the token returns 404
(not found) and never 403, leaving the database unchanged, regardless of
the comment's author. -/
theorem cross_revision_comment_always_not_found (db : DB) (tok : TokenData)
    (cid : Nat) (p : CommentPayload) (now : Nat)
    (h : ∀ c ∈ db.comments, c.id = cid → c.page_revision ≠ tok.page_revision) :
    commentRetrieve db tok cid = .notFound
    ∧ commentUpdate db tok cid p now = (.notFound, db)
    ∧ commentDelete db tok cid = (.notFound, db) := by
  have hnone := commentGetObject_eq_none db tok cid h
  refine ⟨?_, ?_, ?_⟩
  · unfold commentRetrieve
    rw [hnone]
  · unfold commentUpdate
    rw [hnone]
  · unfold commentDelete
    rw [hnone]

/-- C2 witness: comment 3 of the sample database lives on revision 101
while the token is bound to revision 100; all three methods yield 404. -/
theorem cross_revision_comment_always_not_found_witness :
    commentRetrieve demoDB demoTok 3 = .notFound
    ∧ commentUpdate demoDB demoTok 3 demoPayload 7 = (.notFound, demoDB)
    ∧ commentDelete demoDB demoTok 3 = (.notFound, demoDB) :=
  cross_revision_comment_always_not_found demoDB demoTok 3 demoPayload 7
    (by decide)

/-- C3: on the bound revision, an update or delete of a comment or reply
succeeds only when the token's reviewer is the recorded author, and an
author mismatch yields 403 with the database untouched; resolve and
unresolve succeed for any reviewer holding comment rights, with no
authorship condition. -/
theorem author_only_mutation_resolve_any_rights (db : DB) (tok : TokenData)
    (cid rid : Nat) (c : Comment) (rp : CommentReply) (p : CommentPayload)
    (t : String) (now : Nat)
    (hc : commentGetObject db tok cid = some c)
    (hrp : replyGetObject db tok cid rid = some rp) :
    ((commentUpdate db tok cid p now).1 = .ok 200 → c.reviewer = tok.reviewer)
    ∧ ((commentDelete db tok cid).1 = .ok 204 → c.reviewer = tok.reviewer)
    ∧ (c.reviewer ≠ tok.reviewer →
        commentUpdate db tok cid p now = (.forbidden genericForbidden, db)
        ∧ commentDelete db tok cid = (.forbidden genericForbidden, db))
    ∧ ((replyUpdate db tok cid rid t now).1 = .ok 200 → rp.reviewer = tok.reviewer)
    ∧ ((replyDelete db tok cid rid).1 = .ok 204 → rp.reviewer = tok.reviewer)
    ∧ (rp.reviewer ≠ tok.reviewer →
        replyUpdate db tok cid rid t now = (.forbidden genericForbidden, db)
        ∧ replyDelete db tok cid rid = (.forbidden genericForbidden, db))
    ∧ (canComment db tok = true →
        (resolveComment db tok cid now).1 = .ok 200
        ∧ (unresolveComment db tok cid).1 = .ok 200) := by
  unfold commentUpdate commentDelete replyUpdate replyDelete
    resolveComment unresolveComment
  rw [hc, hrp]
  by_cases hcc : canComment db tok
  · by_cases hr : c.reviewer = tok.reviewer
    · by_cases hr2 : rp.reviewer = tok.reviewer
      · simp [hcc, hr, hr2]
      · simp [hcc, hr, hr2]
    · by_cases hr2 : rp.reviewer = tok.reviewer
      · simp [hcc, hr, hr2]
      · simp [hcc, hr, hr2]
  · simp [hcc]

/-- C3 witness: in the sample database comment 1 (authored by reviewer 1)
and reply 6 under it (authored by reviewer 2) are in scope for the token
of reviewer 1, and the theorem applies concretely. -/
theorem author_only_mutation_resolve_any_rights_witness :
    ((commentUpdate demoDB demoTok 1 demoPayload 7).1 = .ok 200 →
        (Comment.mk 1 100 1 "q1" "t1" "title" "/foo" 1 "/foo" 10 0 0 none).reviewer = demoTok.reviewer)
    ∧ ((commentDelete demoDB demoTok 1).1 = .ok 204 →
        (Comment.mk 1 100 1 "q1" "t1" "title" "/foo" 1 "/foo" 10 0 0 none).reviewer = demoTok.reviewer)
    ∧ ((Comment.mk 1 100 1 "q1" "t1" "title" "/foo" 1 "/foo" 10 0 0 none).reviewer ≠ demoTok.reviewer →
        commentUpdate demoDB demoTok 1 demoPayload 7 = (.forbidden genericForbidden, demoDB)
        ∧ commentDelete demoDB demoTok 1 = (.forbidden genericForbidden, demoDB))
    ∧ ((replyUpdate demoDB demoTok 1 6 "new" 7).1 = .ok 200 →
        (CommentReply.mk 6 1 2 "r6" 0 0).reviewer = demoTok.reviewer)
    ∧ ((replyDelete demoDB demoTok 1 6).1 = .ok 204 →
        (CommentReply.mk 6 1 2 "r6" 0 0).reviewer = demoTok.reviewer)
    ∧ ((CommentReply.mk 6 1 2 "r6" 0 0).reviewer ≠ demoTok.reviewer →
        replyUpdate demoDB demoTok 1 6 "new" 7 = (.forbidden genericForbidden, demoDB)
        ∧ replyDelete demoDB demoTok 1 6 = (.forbidden genericForbidden, demoDB))
    ∧ (canComment demoDB demoTok = true →
        (resolveComment demoDB demoTok 1 7).1 = .ok 200
        ∧ (unresolveComment demoDB demoTok 1).1 = .ok 200) :=
  author_only_mutation_resolve_any_rights demoDB demoTok 1 6
    (Comment.mk 1 100 1 "q1" "t1" "title" "/foo" 1 "/foo" 10 0 0 none)
    (CommentReply.mk 6 1 2 "r6" 0 0) demoPayload "new" 7 (by decide) (by decide)

/-- Database where reviewer 2's only Share on page 10 is disabled, yet
reviewer 2 is assigned to task 20 whose state 30 is the page's current
task-state. -/
def shareDisabledDB : DB :=
  { reviewers := [2]
  , revisions := [⟨100, 10⟩]
  , shares := [⟨10, 2, false⟩]
  , tasks := [⟨20, [2]⟩]
  , workflow_states := [⟨40, 10, .in_progress, some 30⟩]
  , task_states := [⟨30, 40, 20, 100, .pending, "", none, none⟩]
  , comments := []
  , replies := [] }

/-- C5 counterexample: every Share of `shareDisabledDB` for reviewer 2 has
`can_comment = false`, yet the rights summary reports `can_comment = true`
(and `can_review = false` only because the token carries no task-state):
the task-assignment grant is NOT revoked by a disabled Share, so a
disabled Share does not force both flags false "even if other grants would
otherwise apply". -/
theorem rights_summary_share_disabled_counterexample :
    (∀ s ∈ shareDisabledDB.shares, s.reviewer = 2 → s.can_comment = false)
    ∧ (baseView shareDisabledDB ⟨2, 100, none⟩).can_comment = true := by
  decide

/-- C5 amended: when the bound reviewer's Shares on the page of the bound
revision all have `can_comment = false` AND the reviewer is not assigned
to a task whose state is the page's current task-state, the rights
summary reports `can_comment = false` and `can_review = false`: the
disabled Share revokes the share path, while a task-assignment grant, when
present, still applies. -/
theorem rights_summary_share_disabled (db : DB) (tok : TokenData)
    (rev : PageRevision)
    (hrev : db.findRevision tok.page_revision = some rev)
    (hshare : ∀ s ∈ db.shares, s.page = rev.page → s.reviewer = tok.reviewer →
        s.can_comment = false)
    (htask : reviewerAssignedToCurrentTask db tok.reviewer rev.page = false) :
    (baseView db tok).can_comment = false
    ∧ (baseView db tok).can_review = false := by
  constructor
  · show canComment db tok = false
    unfold canComment
    rw [hrev]
    simp only [Bool.or_eq_false_iff]
    refine ⟨?_, htask⟩
    rw [List.any_eq_false]
    intro s hs
    simp only [Bool.and_eq_true, beq_iff_eq, not_and]
    intro hpr
    simp [hshare s hs hpr.1 hpr.2]
  · show canReview db tok = false
    unfold canReview
    cases htok : tok.task_state with
    | none => rfl
    | some tsId =>
        rw [hrev]
        unfold reviewerAssignedToCurrentTask at htask
        cases hcur : pageCurrentTaskState db rev.page with
        | none => simp [hcur]
        | some cur =>
            rw [hcur] at htask
            have hred : (match some tsId, some rev with
                | some tsId, some rev =>
                    pageCurrentTaskState db rev.page == some tsId
                      && assignedToTaskState db tok.reviewer tsId
                | _, _ => false) =
                (pageCurrentTaskState db rev.page == some tsId
                  && assignedToTaskState db tok.reviewer tsId) := rfl
            rw [hred, hcur]
            by_cases h : cur = tsId
            · subst h
              simp at htask ⊢
              exact htask
            · simp [h]

/-- C5 amended witness: reviewer 2 of the sample database has only a
disabled Share on page 10 and is not assigned to the current task, so both
flags come out false. -/
theorem rights_summary_share_disabled_witness :
    (baseView demoDB ⟨2, 100, none⟩).can_comment = false
    ∧ (baseView demoDB ⟨2, 100, none⟩).can_review = false :=
  rights_summary_share_disabled demoDB ⟨2, 100, none⟩ ⟨100, 10⟩
    (by decide) (by decide) (by decide)

/-- C4: a respond request whose token carries a task-state other than the
page's current task-state fails with 403 and the message "The provided
token isn\x27t for the current task.", even though the reviewer is validly
assigned to that task, and the database — in particular the task-state —
is left unchanged. -/
theorem respond_wrong_task_forbidden (db : DB) (tok : TokenData)
    (tsId : Nat) (rev : PageRevision) (action comment : String) (now : Nat)
    (ht : tok.task_state = some tsId)
    (ha : assignedToTaskState db tok.reviewer tsId = true)
    (hrev : db.findRevision tok.page_revision = some rev)
    (hcur : pageCurrentTaskState db rev.page ≠ some tsId) :
    respondView db tok action comment now = (.forbidden wrongTaskForbidden, db) := by
  unfold respondView
  rw [ht, hrev]
  simp [ha, hcur]

/-- C4 witness: task-state 31 of the sample database belongs to an earlier
pass of the workflow, the current task-state being 30; reviewer 1 is
assigned to its task, yet responding with a token bound to 31 fails with
the wrong-task message and leaves the database unchanged. -/
theorem respond_wrong_task_forbidden_witness :
    respondView demoDB ⟨1, 100, some 31⟩ "approve" "c" 9 =
      (.forbidden wrongTaskForbidden, demoDB) :=
  respond_wrong_task_forbidden demoDB ⟨1, 100, some 31⟩ 31 ⟨100, 10⟩
    "approve" "c" 9 (by decide) (by decide) (by decide) (by decide)

/-- C8: a respond request whose action is neither "approve" nor "reject"
fails with the generic permission-denied response — not a validation
error, and not the wrong-task message — and the database is left
unchanged (stated for requests passing the assignment and current-task
checks, as in the pinned test). -/
theorem respond_unrecognized_action_forbidden (db : DB) (tok : TokenData)
    (tsId : Nat) (rev : PageRevision) (action comment : String) (now : Nat)
    (ht : tok.task_state = some tsId)
    (ha : assignedToTaskState db tok.reviewer tsId = true)
    (hrev : db.findRevision tok.page_revision = some rev)
    (hcur : pageCurrentTaskState db rev.page = some tsId)
    (ha1 : action ≠ "approve") (ha2 : action ≠ "reject") :
    respondView db tok action comment now = (.forbidden genericForbidden, db) := by
  unfold respondView
  rw [ht, hrev]
  simp [ha, hcur, ha1, ha2]

/-- C8 witness: responding with action "foo" on an otherwise fully valid
request fails with the generic permission error and changes nothing. -/
theorem respond_unrecognized_action_forbidden_witness :
    respondView demoDB ⟨1, 100, some 30⟩ "foo" "c" 9 =
      (.forbidden genericForbidden, demoDB) :=
  respond_unrecognized_action_forbidden demoDB ⟨1, 100, some 30⟩ 30 ⟨100, 10⟩
    "foo" "c" 9 (by decide) (by decide) (by decide) (by decide)
    (by decide) (by decide)

/-- Finishing a task-state rewrites exactly the matching row of the
task-state table. -/
theorem findTaskState_finish (db : DB) (tsId : Nat) (st : TaskStatus)
    (c : String) (now r : Nat) :
    (finishTaskState db tsId st c now r).findTaskState tsId =
      (db.findTaskState tsId).map (fun ts =>
        if ts.id == tsId then
          { ts with status := st, comment := c,
                    finished_at := some now, reviewer := some r }
        else ts) := by
  unfold finishTaskState DB.findTaskState
  exact find_map_of_pres _ _ (fun ts => by by_cases h : ts.id == tsId <;> simp [h]) _

/-- C6: when the token's task-state is the page's current task-state, its
status is pending and the reviewer is assigned to its task, a respond with
action "approve" returns 200 and the task-state becomes finished: status
approved, `finished_at` set, reviewer recorded, submitted comment
stored. -/
theorem respond_approve_transitions (db : DB) (tok : TokenData)
    (tsId : Nat) (ts : ReviewTaskState) (rev : PageRevision)
    (comment : String) (now : Nat)
    (ht : tok.task_state = some tsId)
    (hts : db.findTaskState tsId = some ts)
    (_hpending : ts.status = .pending)
    (ha : assignedToTaskState db tok.reviewer tsId = true)
    (hrev : db.findRevision tok.page_revision = some rev)
    (hcur : pageCurrentTaskState db rev.page = some tsId) :
    (respondView db tok "approve" comment now).1 = .ok 200
    ∧ (respondView db tok "approve" comment now).2.findTaskState tsId =
        some { ts with status := .approved, comment := comment,
                       finished_at := some now, reviewer := some tok.reviewer } := by
  have hid : (ts.id == tsId) = true := by
    have := List.find?_some hts
    exact this
  have hresp : respondView db tok "approve" comment now =
      (.ok 200, finishTaskState db tsId .approved comment now tok.reviewer) := by
    unfold respondView
    rw [ht, hrev]
    simp [ha, hcur]
  rw [hresp]
  refine ⟨rfl, ?_⟩
  show (finishTaskState db tsId .approved comment now tok.reviewer).findTaskState tsId = _
  rw [findTaskState_finish, hts]
  simp only [Option.map_some', hid, if_true]

/-- C6 witness: on the sample database task-state 30 is pending and
current, reviewer 1 is assigned, and approving stores the approved status,
timestamp, reviewer and comment. -/
theorem respond_approve_transitions_witness :
    (respondView demoDB ⟨1, 100, some 30⟩ "approve" "ok" 9).1 = .ok 200
    ∧ (respondView demoDB ⟨1, 100, some 30⟩ "approve" "ok" 9).2.findTaskState 30 =
        some { ReviewTaskState.mk 30 40 20 100 .pending "" none none with
                 status := .approved, comment := "ok",
                 finished_at := some 9, reviewer := some 1 } :=
  respond_approve_transitions demoDB ⟨1, 100, some 30⟩ 30
    (ReviewTaskState.mk 30 40 20 100 .pending "" none none) ⟨100, 10⟩
    "ok" 9 (by decide) (by decide) (by decide) (by decide) (by decide)
    (by decide)

/-- C7: a reviewer holding a Share with `can_comment = true` on the page of
the bound revision may create a comment: the request returns 201 and the
stored row has reviewer := the bound reviewer, page_revision := the bound
revision and `resolved_at` null, the anchoring fields copied from the
payload. -/
theorem comment_create_stores_row (db : DB) (tok : TokenData)
    (rev : PageRevision) (s : Share) (p : CommentPayload) (newId now : Nat)
    (hrev : db.findRevision tok.page_revision = some rev)
    (hs : s ∈ db.shares) (hpage : s.page = rev.page)
    (hwho : s.reviewer = tok.reviewer) (hcan : s.can_comment = true) :
    (commentCreate db tok p newId now).1 = .ok 201
    ∧ (commentCreate db tok p newId now).2.comments =
        db.comments ++
          [{ id := newId, page_revision := tok.page_revision,
             reviewer := tok.reviewer, quote := p.quote, text := p.text,
             content_path := p.content_path,
             start_xpath := p.start_xpath, start_offset := p.start_offset,
             end_xpath := p.end_xpath, end_offset := p.end_offset,
             created_at := now, updated_at := now, resolved_at := none }] := by
  have hcc : canComment db tok = true := by
    unfold canComment
    rw [hrev]
    refine Bool.or_eq_true_iff.mpr (Or.inl ?_)
    exact List.any_eq_true.mpr ⟨s, hs, by simp [hpage, hwho, hcan]⟩
  unfold commentCreate
  simp [hcc]

/-- C7 witness: reviewer 1's enabling Share on page 10 lets the token
⟨1, 100⟩ create a comment from the demo payload; the stored row carries
reviewer 1, revision 100 and a null `resolved_at`. -/
theorem comment_create_stores_row_witness :
    (commentCreate demoDB demoTok demoPayload 8 9).1 = .ok 201
    ∧ (commentCreate demoDB demoTok demoPayload 8 9).2.comments =
        demoDB.comments ++
          [{ id := 8, page_revision := demoTok.page_revision,
             reviewer := demoTok.reviewer, quote := demoPayload.quote,
             text := demoPayload.text, content_path := demoPayload.content_path,
             start_xpath := demoPayload.start_xpath,
             start_offset := demoPayload.start_offset,
             end_xpath := demoPayload.end_xpath,
             end_offset := demoPayload.end_offset,
             created_at := 9, updated_at := 9, resolved_at := none }] :=
  comment_create_stores_row demoDB demoTok ⟨100, 10⟩ ⟨10, 1, true⟩
    demoPayload 8 9 (by decide) (by decide) (by decide) (by decide) (by decide)

/-- Writing the same `resolved_at` value twice is the same as writing it
once. -/
theorem setResolved_idem (db : DB) (cid : Nat) (v : Option Nat) :
    setResolved (setResolved db cid v) cid v = setResolved db cid v := by
  unfold setResolved
  congr 1
  rw [List.map_map]
  refine List.map_congr_left ?_
  intro a _
  simp only [Function.comp]
  by_cases h : a.id == cid <;> simp [h]

/-- C9: resolve and unresolve are idempotent for any reviewer with comment
rights on the bound revision: a second resolve returns 200 and leaves the
state of the first (in which `resolved_at` is non-null), and a second
unresolve returns 200 and leaves the state of the first (in which
`resolved_at` is null); authorship plays no role. -/
theorem resolve_unresolve_idempotent (db : DB) (tok : TokenData) (cid : Nat)
    (c : Comment) (now : Nat)
    (hc : commentGetObject db tok cid = some c)
    (hcan : canComment db tok = true) :
    (resolveComment db tok cid now).1 = .ok 200
    ∧ resolveComment (resolveComment db tok cid now).2 tok cid now =
        resolveComment db tok cid now
    ∧ (commentGetObject (resolveComment db tok cid now).2 tok cid).map
        Comment.resolved_at = some (some now)
    ∧ (unresolveComment db tok cid).1 = .ok 200
    ∧ unresolveComment (unresolveComment db tok cid).2 tok cid =
        unresolveComment db tok cid
    ∧ (commentGetObject (unresolveComment db tok cid).2 tok cid).map
        Comment.resolved_at = some none := by
  have hcfind : db.comments.find?
      (fun x => x.id == cid && x.page_revision == tok.page_revision) = some c := hc
  have hpc := List.find?_some hcfind
  simp only [Bool.and_eq_true] at hpc
  have hid : (c.id == cid) = true := hpc.1
  have hget : ∀ v : Option Nat,
      commentGetObject (setResolved db cid v) tok cid =
        some { c with resolved_at := v } := by
    intro v
    show (db.comments.map
        (fun x => if x.id == cid then { x with resolved_at := v } else x)).find?
        (fun x => x.id == cid && x.page_revision == tok.page_revision) = _
    rw [find_map_of_pres _ _ (fun x => by by_cases h : x.id == cid <;> simp [h])]
    rw [hcfind]
    simp only [Option.map_some', hid, if_true]
  have hres : resolveComment db tok cid now = (.ok 200, setResolved db cid (some now)) := by
    unfold resolveComment
    rw [hc]
    simp [hcan]
  have hunres : unresolveComment db tok cid = (.ok 200, setResolved db cid none) := by
    unfold unresolveComment
    rw [hc]
    simp [hcan]
  refine ⟨by rw [hres], ?_, ?_, by rw [hunres], ?_, ?_⟩
  · rw [hres]
    show resolveComment (setResolved db cid (some now)) tok cid now = _
    unfold resolveComment
    rw [hget (some now)]
    simp [show canComment (setResolved db cid (some now)) tok = true from hcan]
    exact setResolved_idem db cid (some now)
  · rw [hres]
    show (commentGetObject (setResolved db cid (some now)) tok cid).map
        Comment.resolved_at = _
    rw [hget (some now)]
    rfl
  · rw [hunres]
    show unresolveComment (setResolved db cid none) tok cid = _
    unfold unresolveComment
    rw [hget none]
    simp [show canComment (setResolved db cid none) tok = true from hcan]
    exact setResolved_idem db cid none
  · rw [hunres]
    show (commentGetObject (setResolved db cid none) tok cid).map
        Comment.resolved_at = _
    rw [hget none]
    rfl

/-- C9 witness: comment 1 of the sample database, resolved and unresolved
by the rights-holding reviewer 1, concretely exhibits both idempotent
toggles. -/
theorem resolve_unresolve_idempotent_witness :
    (resolveComment demoDB demoTok 1 9).1 = .ok 200
    ∧ resolveComment (resolveComment demoDB demoTok 1 9).2 demoTok 1 9 =
        resolveComment demoDB demoTok 1 9
    ∧ (commentGetObject (resolveComment demoDB demoTok 1 9).2 demoTok 1).map
        Comment.resolved_at = some (some 9)
    ∧ (unresolveComment demoDB demoTok 1).1 = .ok 200
    ∧ unresolveComment (unresolveComment demoDB demoTok 1).2 demoTok 1 =
        unresolveComment demoDB demoTok 1
    ∧ (commentGetObject (unresolveComment demoDB demoTok 1).2 demoTok 1).map
        Comment.resolved_at = some none :=
  resolve_unresolve_idempotent demoDB demoTok 1
    (Comment.mk 1 100 1 "q1" "t1" "title" "/foo" 1 "/foo" 10 0 0 none) 9
    (by decide) (by decide)

/-- Errors of the configuration machinery of `wagtail_review/forms.py`:
Django's ImportError and ImproperlyConfigured. -/
inductive DjangoError where
  | importFailed
  | improperlyConfigured (msg : String)
deriving DecidableEq, Repr

/-- Django's `import_string`, modelled as a lookup in an import
environment mapping dotted paths to importable values; a path that cannot
be imported raises ImportError. -/
def import_string {α : Type} (env : String → Option α) (path : String) :
    Except DjangoError α :=
  match env path with
  | some c => .ok c
  | none => .error .importFailed

/-- Default value of the WAGTAILREVIEW_REVIEW_FORM setting in
`wagtail_review/forms.py`. -/
def defaultReviewFormPath : String := "wagtail_review.forms.CreateReviewForm"

/-- Embedding of `get_review_form_class` from `wagtail_review/forms.py`:
read the WAGTAILREVIEW_REVIEW_FORM setting, falling back to
wagtail_review.forms.CreateReviewForm when absent, import it, and turn an
ImportError into ImproperlyConfigured with the documented message. -/
def get_review_form_class {α : Type} (setting : Option String)
    (env : String → Option α) : Except DjangoError α :=
  let form_class_name := setting.getD defaultReviewFormPath
  match import_string env form_class_name with
  | .ok c => .ok c
  | .error _ =>
      .error (.improperlyConfigured
        ("WAGTAILREVIEW_REVIEW_FORM refers to a form \x27" ++ form_class_name
          ++ "\x27 that is not available"))

/-- C10: `get_review_form_class` returns the class named by the
WAGTAILREVIEW_REVIEW_FORM setting, defaults to
wagtail_review.forms.CreateReviewForm when the setting is absent, and for
every setting value naming a class that cannot be imported fails with
ImproperlyConfigured — never with a bare ImportError. -/
theorem get_review_form_class_spec {α : Type} (setting : Option String)
    (env : String → Option α) :
    (∀ s c, setting = some s → env s = some c →
        get_review_form_class setting env = .ok c)
    ∧ (∀ c, setting = none → env defaultReviewFormPath = some c →
        get_review_form_class setting env = .ok c)
    ∧ (env (setting.getD defaultReviewFormPath) = none →
        get_review_form_class setting env =
          .error (.improperlyConfigured
            ("WAGTAILREVIEW_REVIEW_FORM refers to a form \x27"
              ++ setting.getD defaultReviewFormPath
              ++ "\x27 that is not available"))) := by
  refine ⟨?_, ?_, ?_⟩
  · intro s c hs hcls
    subst hs
    unfold get_review_form_class import_string
    simp [hcls]
  · intro c hs hcls
    subst hs
    unfold get_review_form_class import_string
    simp [hcls]
  · intro hmiss
    unfold get_review_form_class import_string
    simp [hmiss]

/-- C10 witness: a resolvable configured path yields that class, the
absent setting yields the default class, and an unresolvable path yields
ImproperlyConfigured with the documented message. -/
theorem get_review_form_class_spec_witness :
    get_review_form_class (some ("myapp.forms.F"))
        (fun p => if p = "myapp.forms.F" then some 7 else none) = .ok 7
    ∧ get_review_form_class none
        (fun p => if p = defaultReviewFormPath then some 5 else none) = .ok 5
    ∧ get_review_form_class (some ("gone.Form")) (fun _ => (none : Option Nat)) =
        .error (.improperlyConfigured
          ("WAGTAILREVIEW_REVIEW_FORM refers to a form \x27" ++ "gone.Form"
            ++ "\x27 that is not available")) :=
  ⟨(get_review_form_class_spec (some ("myapp.forms.F"))
      (fun p => if p = "myapp.forms.F" then some 7 else none)).1
      "myapp.forms.F" 7 rfl (by simp),
   (get_review_form_class_spec none
      (fun p => if p = defaultReviewFormPath then some 5 else none)).2.1
      5 rfl (by simp),
   (get_review_form_class_spec (some ("gone.Form"))
      (fun _ => (none : Option Nat))).2.2 rfl⟩

end WagtailReview
